import Mathlib

/-!
Verification of the atsamd21 HAL core: a shallow embedding of the DMA
channel lifecycle code (hal/src/dmac/channel.rs) and of the DFLL clock
source code (hal/src/thumbv7em/clock/v2/sources/dfll.rs), with theorems
checking the design documentation against the embedded code.

Register traffic is modelled as traces of events: each HAL method is
translated into the list of register writes, reads and busy-wait loops it
performs, in program order. Pure computations (the transfer-complete
predicate, the output-frequency computation) are translated as functions
on natural numbers, with unsigned 32-bit arithmetic made explicit as
reduction modulo 2 ^ 32.
-/

namespace Dmac

/-- Chip-family variant selecting the register-access strategy: samd11 and
samd21 share a single CHID channel-selector register, while samd51 and the
same5x parts expose one dedicated register block per channel. -/
inductive Variant
  | samd11_21
  | samd51
deriving DecidableEq, Repr

/-- One observable action performed by the DMA channel code, in program
order: register writes, the interrupt mask and unmask that bracket a
critical section, single register reads, and busy-wait loops on a hardware
status bit. -/
inductive Event
  | maskIrq
  | unmaskIrq
  | writeChid (id : Nat)
  | writeChctrlbLvl (lvl : Nat)
  | writeChprilvl (lvl : Nat)
  | writeSwrst
  | waitSwrstClear
  | writeChintenset (bits : Nat)
  | writeChintenclr (bits : Nat)
  | writeTrigger (src act : Nat)
  | writeEnable (b : Bool)
  | writeSwtrigctrl (id : Nat)
  | readBusychPendch
  | waitXferComplete
deriving DecidableEq, Repr

/-- Translation of Channel::with_chid. On samd11/samd21 it enters an
interrupt-free critical section, writes the channel id to the shared CHID
selector register, runs the body, and leaves the critical section. On
samd51-class chips it runs the body directly on the dedicated per-channel
register block, with no masking and no selector write. -/
def with_chid : Variant → Nat → List Event → List Event
  | .samd11_21, id, body =>
      Event.maskIrq :: Event.writeChid id :: (body ++ [Event.unmaskIrq])
  | .samd51, _, body => body

/-- Translation of Channel::_reset_private: inside with_chid, set the
software-reset bit of CHCTRLA and spin until the hardware clears it. -/
def reset_private (v : Variant) (id : Nat) : List Event :=
  with_chid v id [Event.writeSwrst, Event.waitSwrstClear]

/-- Priority-level write issued by Channel::init: the LVL field of CHCTRLB
on samd11/samd21, the PRILVL field of CHPRILVL on samd51-class chips. -/
def prioWrite : Variant → Nat → Event
  | .samd11_21, lvl => Event.writeChctrlbLvl lvl
  | .samd51, lvl => Event.writeChprilvl lvl

/-- Translation of Channel::init: software-reset the channel, then program
the priority level, both inside with_chid. -/
def init (v : Variant) (id lvl : Nat) : List Event :=
  reset_private v id ++ with_chid v id [prioWrite v lvl]

/-- Translation of Channel::reset on a Ready channel: it is exactly the
private reset sequence. -/
def reset (v : Variant) (id : Nat) : List Event :=
  reset_private v id

/-- Translation of Channel::enable_interrupts: one write of the given flag
bits to CHINTENSET inside with_chid. -/
def enable_interrupts (v : Variant) (id flags : Nat) : List Event :=
  with_chid v id [Event.writeChintenset flags]

/-- Translation of Channel::disable_interrupts: one write of the given flag
bits to CHINTENCLR inside with_chid. -/
def disable_interrupts (v : Variant) (id flags : Nat) : List Event :=
  with_chid v id [Event.writeChintenclr flags]

/-- Translation of Channel::_trigger_private: set this channel's bit of the
global SWTRIGCTRL register. SWTRIGCTRL is not behind the CHID selector, and
the source accesses it outside with_chid. -/
def trigger_private (id : Nat) : List Event :=
  [Event.writeSwtrigctrl id]

/-- Numeric value of the TriggerSource::DISABLE sentinel from the PAC. -/
def DISABLE : Nat := 0

/-- Translation of Channel::start: inside with_chid, program the trigger
source and trigger action, then set the channel enable bit; afterwards, if
and only if the trigger source is the DISABLE sentinel, issue a software
trigger, since no hardware event would ever start the transfer. -/
def start (v : Variant) (id src act : Nat) : List Event :=
  with_chid v id [Event.writeTrigger src act, Event.writeEnable true] ++
    (if src = DISABLE then trigger_private id else [])

/-- Translation of Channel::xfer_complete as a pure function of the channel
id and of a snapshot of the BUSYCH and PENDCH registers: the transfer is
complete when this channel's bit is clear in both registers. -/
def xfer_complete (id busych pendch : Nat) : Bool :=
  (busych &&& (1 <<< id) == 0) && (pendch &&& (1 <<< id) == 0)

/-- Register traffic of Channel::xfer_complete: a single read of the
BUSYCH and PENDCH status registers, with no busy-wait loop. -/
def xfer_completeTrace : List Event := [Event.readBusychPendch]

/-- Translation of Channel::free: spin until xfer_complete reports true,
then hand the channel back as Ready. -/
def free : List Event := [Event.waitXferComplete]

/-- Translation of Channel::stop: inside with_chid, clear the channel
enable bit, then delegate to free, which busy-waits on xfer_complete. -/
def stop (v : Variant) (id : Nat) : List Event :=
  with_chid v id [Event.writeEnable false] ++ free

/-- Channel status as tracked at the type level by the source. -/
inductive Status
  | Uninit
  | Ready
  | Busy
deriving DecidableEq, Repr

/-- Public operations of the channel state machine. -/
inductive Op
  | init
  | enableInterrupts
  | disableInterrupts
  | reset
  | fifoThreshold
  | burstLength
  | start
  | softwareTrigger
  | xferComplete
  | stop
  | free
deriving DecidableEq, Repr

/-- Availability of each operation per channel status, transcribed from
the impl blocks of channel.rs: init, enable_interrupts and
disable_interrupts live on the impl for every status; reset,
fifo_threshold, burst_length (samd51-class only) and start live on the
Ready impl; software_trigger, xfer_complete, stop and free live on the
Busy impl. -/
def opAvailable (v : Variant) : Op → Status → Bool
  | .init, _ => true
  | .enableInterrupts, _ => true
  | .disableInterrupts, _ => true
  | .reset, s => s == .Ready
  | .fifoThreshold, s => v == .samd51 && s == .Ready
  | .burstLength, s => v == .samd51 && s == .Ready
  | .start, s => s == .Ready
  | .softwareTrigger, s => s == .Busy
  | .xferComplete, s => s == .Busy
  | .stop, s => s == .Busy
  | .free, s => s == .Busy

/-- Status produced by each operation, from the return types in
channel.rs: init yields Ready, reset yields Uninitialized, start yields
Busy, stop and free yield Ready, and the remaining operations leave the
status unchanged. -/
def opResult : Op → Status → Status
  | .init, _ => .Ready
  | .reset, _ => .Uninit
  | .start, _ => .Busy
  | .stop, _ => .Ready
  | .free, _ => .Ready
  | _, s => s

/-- Events that touch registers reached through the shared CHID selector
on samd11/samd21 (the selector write itself and the per-channel control
registers). SWTRIGCTRL, BUSYCH and PENDCH are global registers with
per-channel bits and are not selector-dependent. -/
def selectorDependent : Event → Bool
  | .writeChid _ => true
  | .writeChctrlbLvl _ => true
  | .writeSwrst => true
  | .waitSwrstClear => true
  | .writeChintenset _ => true
  | .writeChintenclr _ => true
  | .writeTrigger _ _ => true
  | .writeEnable _ => true
  | _ => false

/-- Checker for the critical-section discipline: scanning a trace with a
mask-nesting depth, every selector-dependent access must happen at
positive depth, and every unmask must match an earlier mask. -/
def maskedRun (d : Nat) : List Event → Bool
  | [] => true
  | e :: es =>
    match e with
    | .maskIrq => maskedRun (d + 1) es
    | .unmaskIrq => (d != 0) && maskedRun (d - 1) es
    | _ => (!selectorDependent e || d != 0) && maskedRun d es

/-- Mask and unmask events, the boundaries of a critical section. -/
def isMaskEvent : Event → Bool
  | .maskIrq => true
  | .unmaskIrq => true
  | _ => false

/-- Busy-wait loops on a hardware status bit. -/
def isWaitEvent : Event → Bool
  | .waitSwrstClear => true
  | .waitXferComplete => true
  | _ => false

end Dmac

namespace DfllClock

/-- One observable register action performed by the DFLL token code: field
writes to the DFLLCTRLA, DFLLCTRLB and DFLLMUL registers, and busy-wait
loops on the individual bits of the DFLLSYNC register. -/
inductive REvent
  | writeCtrlaEnable (b : Bool)
  | writeCtrlbMode (b : Bool)
  | writeMulFstep (v : Nat)
  | writeMulCstep (v : Nat)
  | writeMulMul (v : Nat)
  | waitSyncEnable
  | waitSyncDfllmul
  | waitSyncDfllval
  | waitSyncDfllctrlb
deriving DecidableEq, Repr

/-- Translation of Registers::enable: set DFLLCTRLA.ENABLE, then spin on
DFLLSYNC.ENABLE. -/
def enableReg : List REvent :=
  [REvent.writeCtrlaEnable true, REvent.waitSyncEnable]

/-- Translation of Registers::disable: clear DFLLCTRLA.ENABLE, then spin
on DFLLSYNC.ENABLE. -/
def disableReg : List REvent :=
  [REvent.writeCtrlaEnable false, REvent.waitSyncEnable]

/-- Translation of Registers::set_open_mode: clear DFLLCTRLB.MODE, then
spin on DFLLSYNC.ENABLE (the source calls wait_sync_enable here, not
wait_sync_dfllctrlb). -/
def set_open_mode : List REvent :=
  [REvent.writeCtrlbMode false, REvent.waitSyncEnable]

/-- Translation of Registers::set_closed_mode: set DFLLCTRLB.MODE, then
spin on DFLLSYNC.ENABLE (the source calls wait_sync_enable here, not
wait_sync_dfllctrlb). -/
def set_closed_mode : List REvent :=
  [REvent.writeCtrlbMode true, REvent.waitSyncEnable]

/-- Translation of Registers::set_fine_maximum_step: write DFLLMUL.FSTEP,
then spin on DFLLSYNC.DFLLMUL. -/
def set_fine_maximum_step (v : Nat) : List REvent :=
  [REvent.writeMulFstep v, REvent.waitSyncDfllmul]

/-- Translation of Registers::set_coarse_maximum_step: write DFLLMUL.CSTEP,
then spin on DFLLSYNC.DFLLMUL. -/
def set_coarse_maximum_step (v : Nat) : List REvent :=
  [REvent.writeMulCstep v, REvent.waitSyncDfllmul]

/-- Translation of Registers::set_multiplication_factor: write DFLLMUL.MUL,
then spin on DFLLSYNC.DFLLMUL. -/
def set_multiplication_factor (v : Nat) : List REvent :=
  [REvent.writeMulMul v, REvent.waitSyncDfllmul]

/-- Synchronization-busy bits of the DFLLSYNC register, one per register
group. -/
inductive SyncBit
  | enable
  | dfllctrlb
  | dfllmul
  | dfllval
deriving DecidableEq, Repr

/-- Sync bit a wait event spins on, if it is a wait event. -/
def waitOf : REvent → Option SyncBit
  | .waitSyncEnable => some SyncBit.enable
  | .waitSyncDfllctrlb => some SyncBit.dfllctrlb
  | .waitSyncDfllmul => some SyncBit.dfllmul
  | .waitSyncDfllval => some SyncBit.dfllval
  | _ => none

/-- Register group of a write event, if it is a write event: DFLLCTRLA
writes belong to the enable group, DFLLCTRLB writes to the dfllctrlb
group, DFLLMUL writes to the dfllmul group. -/
def groupOf : REvent → Option SyncBit
  | .writeCtrlaEnable _ => some SyncBit.enable
  | .writeCtrlbMode _ => some SyncBit.dfllctrlb
  | .writeMulFstep _ => some SyncBit.dfllmul
  | .writeMulCstep _ => some SyncBit.dfllmul
  | .writeMulMul _ => some SyncBit.dfllmul
  | _ => none

/-- Write events into the DFLLMUL tuning register (fine step, coarse step,
multiplication factor). -/
def isTuningWrite : REvent → Bool
  | .writeMulFstep _ => true
  | .writeMulCstep _ => true
  | .writeMulMul _ => true
  | _ => false

/-- Write events into the DFLLCTRLB.MODE bit. -/
def isModeWrite : REvent → Bool
  | .writeCtrlbMode _ => true
  | _ => false

/-- Unsigned 32-bit arithmetic: reduce a natural number modulo 2 ^ 32, the
behaviour of u32 multiplication in the source. -/
def u32 (n : Nat) : Nat := n % 2 ^ 32

/-- Modelled from the spec: the peripheral-clock handle Pclk of the pclk
module (not included under src). The only capability the DFLL code uses is
its output frequency in Hertz, and the handle is an exclusive value moved
in and out of the closed-loop configuration. -/
structure Pclk where
  freq : Nat
deriving DecidableEq, Repr

/-- Modelled from the spec: the downstream generic-clock-generator handle
Gclk0 of the gclk module (not included under src); an opaque exclusive
value whose possession proves the caller holds the single dependent. -/
structure Gclk0 where
deriving DecidableEq, Repr

/-- The DfllToken (Registers): a zero-sized exclusive capability over the
DFLL register block. -/
structure DfllToken where
deriving DecidableEq, Repr

/-- Open-loop mode payload, from dfll.rs: optional custom fine and coarse
values, currently always None. -/
structure OpenLoop where
  fine : Option Nat
  coarse : Option Nat
deriving DecidableEq, Repr

/-- Closed-loop mode payload, from dfll.rs: the reference peripheral clock
handle and the coarse and fine maximum step limits. -/
structure ClosedLoop where
  reference_clk : Pclk
  coarse_maximum_step : Nat
  fine_maximum_step : Nat
deriving DecidableEq, Repr

/-- The Dfll value, from dfll.rs: register token, stored base frequency in
Hertz, mode payload, multiplication factor, and the two power-mode flags. -/
structure Dfll (TMode : Type) where
  token : DfllToken
  freq : Nat
  mode : TMode
  multiplication_factor : Nat
  standby_sleep_mode : Bool
  on_demand_mode : Bool

/-- Translation of the Dfll::freq method: the stored base frequency times
the multiplication factor, computed in u32 arithmetic. It is named freqOut
here because the Lean field projection already carries the name freq. -/
def Dfll.freqOut {M : Type} (d : Dfll M) : Nat :=
  u32 (d.freq * d.multiplication_factor)

/-- Translation of Dfll::in_open_mode: base frequency 48 MHz,
multiplication factor 1, no custom fine or coarse values. -/
def in_open_mode (token : DfllToken) : Dfll OpenLoop :=
  { token := token
    freq := 48000000
    mode := { fine := none, coarse := none }
    multiplication_factor := 1
    standby_sleep_mode := false
    on_demand_mode := false }

/-- Translation of Dfll::in_closed_mode: the base frequency is the
reference clock frequency, and the supplied factor and step limits are
stored. -/
def in_closed_mode (token : DfllToken) (reference_clk : Pclk)
    (multiplication_factor coarse_maximum_step fine_maximum_step : Nat) :
    Dfll ClosedLoop :=
  { token := token
    freq := reference_clk.freq
    mode :=
      { reference_clk := reference_clk
        coarse_maximum_step := coarse_maximum_step
        fine_maximum_step := fine_maximum_step }
    multiplication_factor := multiplication_factor
    standby_sleep_mode := false
    on_demand_mode := false }

/-- Modelled from the spec: the dependency-counted wrapper Enabled of the
clock types module (not included under src); it pairs an enabled Source
with a count N of downstream dependents recorded at the type level. -/
structure Enabled (S : Type) (N : Nat) where
  inner : S

/-- Modelled from the spec: Enabled::new wraps a freshly enabled Source
with dependent count zero. -/
def Enabled.new {S : Type} (s : S) : Enabled S 0 := ⟨s⟩

/-- Modelled from the spec: the increment operation used by subscribe,
raising the recorded dependent count by one. -/
def Enabled.inc {S : Type} {N : Nat} (e : Enabled S N) : Enabled S (N + 1) :=
  ⟨e.inner⟩

/-- Translation of Dfll of OpenLoop enable: set open mode, then enable,
and wrap the value with dependent count zero. The second component is the
emitted register trace. -/
def Dfll.enableOpen (d : Dfll OpenLoop) :
    Enabled (Dfll OpenLoop) 0 × List REvent :=
  (Enabled.new d, set_open_mode ++ enableReg)

/-- Translation of Dfll of ClosedLoop enable: write the fine maximum step,
the coarse maximum step and the multiplication factor, then set the
closed-loop mode bit, and wrap the value with dependent count zero. The
second component is the emitted register trace. -/
def Dfll.enableClosed (d : Dfll ClosedLoop) :
    Enabled (Dfll ClosedLoop) 0 × List REvent :=
  (Enabled.new d,
    set_fine_maximum_step d.mode.fine_maximum_step ++
      set_coarse_maximum_step d.mode.coarse_maximum_step ++
        set_multiplication_factor d.multiplication_factor ++
          set_closed_mode)

/-- Translation of Dfll of OpenLoop free: hand back the register token. -/
def Dfll.freeOpen (d : Dfll OpenLoop) : DfllToken := d.token

/-- Translation of Dfll of ClosedLoop free: hand back the register token
and the reference clock handle. -/
def Dfll.freeClosed (d : Dfll ClosedLoop) : DfllToken × Pclk :=
  (d.token, d.mode.reference_clk)

/-- Translation of disable on Enabled with count zero: clear the enable
bit and unwrap the Dfll. The second component is the emitted register
trace. -/
def Enabled.disable {M : Type} (e : Enabled (Dfll M) 0) :
    Dfll M × List REvent :=
  (e.inner, disableReg)

/-- Translation of to_closed_mode on Enabled of open-loop Dfll with count
one: free the token, rebuild the Dfll in closed-loop mode with the given
reference clock, factor and step limits, enable it, restore the dependent
count to one, and hand the downstream generator handle back. The second
component is the emitted register trace. -/
def to_closed_mode (e : Enabled (Dfll OpenLoop) 1) (gclk0 : Gclk0)
    (reference_clk : Pclk)
    (multiplication_factor coarse_maximum_step fine_maximum_step : Nat) :
    (Enabled (Dfll ClosedLoop) 1 × Gclk0) × List REvent :=
  let token := e.inner.freeOpen
  let dfll := in_closed_mode token reference_clk multiplication_factor
    coarse_maximum_step fine_maximum_step
  let r := dfll.enableClosed
  ((r.1.inc, gclk0), r.2)

/-- Translation of to_open_mode on Enabled of closed-loop Dfll with count
one: free the token and the reference clock handle, rebuild the Dfll in
open-loop mode, enable it, restore the dependent count to one, and hand
back the downstream generator handle together with the detached reference
clock handle. The second component is the emitted register trace. -/
def to_open_mode (e : Enabled (Dfll ClosedLoop) 1) (gclk0 : Gclk0) :
    (Enabled (Dfll OpenLoop) 1 × Gclk0 × Pclk) × List REvent :=
  let tp := e.inner.freeClosed
  let dfll := in_open_mode tp.1
  let r := dfll.enableOpen
  ((r.1.inc, gclk0, tp.2), r.2)

/-- Operations defined on the Enabled wrapper of a Dfll in dfll.rs. -/
inductive EnabledOp
  | disableOp
  | toClosedModeOp
  | toOpenModeOp
deriving DecidableEq, Repr

/-- Dependent counts at which each Enabled operation is defined,
transcribed from the impl headers of dfll.rs: disable on count zero only,
to_closed_mode and to_open_mode on count one only. -/
def enabledOpAvailable : EnabledOp → Nat → Bool
  | .disableOp, n => n == 0
  | .toClosedModeOp, n => n == 1
  | .toOpenModeOp, n => n == 1

/-- Write events of the fine maximum step field. -/
def isFstepWrite : REvent → Bool
  | .writeMulFstep _ => true
  | _ => false

/-- Write events of the coarse maximum step field. -/
def isCstepWrite : REvent → Bool
  | .writeMulCstep _ => true
  | _ => false

/-- Write events of the multiplication factor field. -/
def isMulWrite : REvent → Bool
  | .writeMulMul _ => true
  | _ => false

/-- Checker over a register trace: a mode-bit write occurs, all three
tuning-parameter writes (fine step, coarse step, multiplication factor)
occur strictly before the first mode-bit write, and no tuning write occurs
at or after the first mode-bit write. -/
def tuningWritesPrecedeModeWrite (t : List REvent) : Bool :=
  let pre := t.takeWhile (fun e => !isModeWrite e)
  let post := t.dropWhile (fun e => !isModeWrite e)
  pre.any isFstepWrite && pre.any isCstepWrite && pre.any isMulWrite &&
    !post.isEmpty && !post.any isTuningWrite

/-- Closed-loop Dfll whose true output product overflows 32 bits: base
frequency 2 ^ 31 Hz with multiplication factor 4, giving a mathematical
product of 2 ^ 33. -/
def overflowDfll : Dfll ClosedLoop :=
  in_closed_mode {} { freq := 2147483648 } 4 1 1

/-- Scenario value used to instantiate theorems about the closed-loop
enable sequence on concrete inputs. -/
def sampleClosedDfll : Dfll ClosedLoop :=
  in_closed_mode {} { freq := 32768 } 1000 1 1

/-- Scenario value used to instantiate theorems about the mode-switch
round trip on concrete inputs. -/
def sampleEnabledOpen : Enabled (Dfll OpenLoop) 1 :=
  (in_open_mode {}).enableOpen.1.inc

end DfllClock

/-- Helper: this channel's bit test, as written in the source with a mask
and a shift, coincides with Nat.testBit. -/
theorem Dmac.and_shift_beq_zero (n id : Nat) :
    (n &&& (1 <<< id) == 0) = !n.testBit id := by
  rw [Nat.shiftLeft_eq, one_mul, Nat.and_two_pow]
  cases h : n.testBit id
  · simp
  · simp [Nat.pow_eq_zero]

/-- C1: xfer_complete on channel id is true exactly when both the PENDCH
bit and the BUSYCH bit of that channel are clear; all four combinations of
the two status bits are also evaluated explicitly, and the operation emits
no busy-wait event, so it is non-blocking. -/
theorem Dmac.xfer_complete_iff_not_pending_not_busy (id busych pendch : Nat) :
    (Dmac.xfer_complete id busych pendch = true ↔
      (pendch.testBit id = false ∧ busych.testBit id = false)) ∧
    Dmac.xfer_complete id 0 0 = true ∧
    Dmac.xfer_complete id (2 ^ id) 0 = false ∧
    Dmac.xfer_complete id 0 (2 ^ id) = false ∧
    Dmac.xfer_complete id (2 ^ id) (2 ^ id) = false ∧
    Dmac.xfer_completeTrace.all (fun e => !Dmac.isWaitEvent e) = true := by
  have comp : ∀ b p : Nat,
      Dmac.xfer_complete id b p = (!b.testBit id && !p.testBit id) := by
    intro b p
    unfold Dmac.xfer_complete
    rw [Dmac.and_shift_beq_zero, Dmac.and_shift_beq_zero]
  refine ⟨?_, ?_, ?_, ?_, ?_, rfl⟩
  · rw [comp]
    cases hb : busych.testBit id <;> cases hp : pendch.testBit id <;> simp
  · simp [comp, Nat.zero_testBit]
  · simp [comp, Nat.testBit_two_pow_self]
  · simp [comp, Nat.testBit_two_pow_self, Nat.zero_testBit]
  · simp [comp, Nat.testBit_two_pow_self]

/-- C2 counterexample: stop on a Busy samd21 channel does busy-wait on a
hardware status bit — its trace contains the xfer_complete spin loop
inherited from free — contradicting the statement that stop returns
without waiting. -/
theorem Dmac.stop_busy_waits :
    (Dmac.stop Dmac.Variant.samd11_21 0).any Dmac.isWaitEvent = true := by
  decide

/-- C2 (amended): stop clears the channel enable bit and then delegates to
free, which busy-waits on xfer_complete before downgrading to Ready; the
enable-clear write precedes the wait, so a transfer may still be aborted
mid-stream, but stop itself also waits; moreover reset busy-waits on the
software-reset bit, so the xfer_complete spin in free is not the only wait
in the component. -/
theorem Dmac.stop_clears_enable_then_frees (v : Dmac.Variant) (id : Nat) :
    Dmac.stop v id =
      Dmac.with_chid v id [Dmac.Event.writeEnable false] ++ Dmac.free ∧
    Dmac.free = [Dmac.Event.waitXferComplete] ∧
    List.Sublist [Dmac.Event.writeEnable false, Dmac.Event.waitXferComplete]
      (Dmac.stop v id) ∧
    (Dmac.stop v id).any Dmac.isWaitEvent = true ∧
    Dmac.opResult Dmac.Op.stop Dmac.Status.Busy = Dmac.Status.Ready ∧
    Dmac.opResult Dmac.Op.free Dmac.Status.Busy = Dmac.Status.Ready ∧
    (Dmac.reset v id).any Dmac.isWaitEvent = true := by
  cases v <;> refine ⟨rfl, rfl, ?_, rfl, rfl, rfl, rfl⟩
  · exact List.Sublist.cons _ (List.Sublist.cons _ (List.Sublist.cons₂ _
      (List.Sublist.cons _ (List.Sublist.cons₂ _ (List.Sublist.slnil)))))
  · exact List.Sublist.refl _

/-- C8: start programs the trigger source and action and then sets the
channel enable bit, in that order; it appends a software trigger if and
only if the trigger source is the DISABLE sentinel; start is available
exactly on a Ready channel and produces a Busy channel. -/
theorem Dmac.start_programs_trigger_then_enables (v : Dmac.Variant)
    (id src act : Nat) :
    (Dmac.Event.writeSwtrigctrl id ∈ Dmac.start v id src act ↔
      src = Dmac.DISABLE) ∧
    List.Sublist [Dmac.Event.writeTrigger src act, Dmac.Event.writeEnable true]
      (Dmac.start v id src act) ∧
    (src = Dmac.DISABLE →
      Dmac.start v id src act =
        Dmac.with_chid v id
          [Dmac.Event.writeTrigger src act, Dmac.Event.writeEnable true] ++
          [Dmac.Event.writeSwtrigctrl id]) ∧
    (src ≠ Dmac.DISABLE →
      Dmac.start v id src act =
        Dmac.with_chid v id
          [Dmac.Event.writeTrigger src act, Dmac.Event.writeEnable true]) ∧
    Dmac.opAvailable v Dmac.Op.start Dmac.Status.Ready = true ∧
    Dmac.opResult Dmac.Op.start Dmac.Status.Ready = Dmac.Status.Busy := by
  refine ⟨?_, ?_, ?_, ?_, by cases v <;> rfl, rfl⟩
  · by_cases h : src = Dmac.DISABLE <;>
      cases v <;>
        simp [Dmac.start, Dmac.with_chid, Dmac.trigger_private, h]
  · have base : List.Sublist
        [Dmac.Event.writeTrigger src act, Dmac.Event.writeEnable true]
        (Dmac.with_chid v id
          [Dmac.Event.writeTrigger src act, Dmac.Event.writeEnable true]) := by
      cases v
      · exact List.Sublist.cons _ (List.Sublist.cons _
          (List.sublist_append_left _ _))
      · exact List.Sublist.refl _
    exact base.trans (List.sublist_append_left _ _)
  · intro h
    simp [Dmac.start, Dmac.trigger_private, h]
  · intro h
    simp [Dmac.start, Dmac.trigger_private, h]

/-- C8 witness: on a concrete samd21 channel started with the DISABLE
sentinel, the trace ends with the software trigger. -/
theorem Dmac.start_programs_trigger_then_enables_witness :
    Dmac.start Dmac.Variant.samd11_21 0 0 0 =
      Dmac.with_chid Dmac.Variant.samd11_21 0
        [Dmac.Event.writeTrigger 0 0, Dmac.Event.writeEnable true] ++
        [Dmac.Event.writeSwtrigctrl 0] :=
  (Dmac.start_programs_trigger_then_enables Dmac.Variant.samd11_21 0 0 0).2.2.1
    rfl

/-- C9: on the shared-selector variant (samd11/samd21), every register
sequence of the channel operations passes the critical-section checker:
the CHID selector write and every selector-dependent register access
happen at positive interrupt-mask depth; on the per-channel-block variant
(samd51-class), the same operations emit no mask or unmask event at
all. -/
theorem Dmac.shared_selector_critical_section (id lvl src act flags : Nat) :
    Dmac.maskedRun 0 (Dmac.init Dmac.Variant.samd11_21 id lvl) = true ∧
    Dmac.maskedRun 0 (Dmac.reset Dmac.Variant.samd11_21 id) = true ∧
    Dmac.maskedRun 0 (Dmac.start Dmac.Variant.samd11_21 id src act) = true ∧
    Dmac.maskedRun 0 (Dmac.stop Dmac.Variant.samd11_21 id) = true ∧
    Dmac.maskedRun 0 (Dmac.enable_interrupts Dmac.Variant.samd11_21 id flags)
      = true ∧
    Dmac.maskedRun 0 (Dmac.disable_interrupts Dmac.Variant.samd11_21 id flags)
      = true ∧
    (Dmac.init Dmac.Variant.samd51 id lvl).all
      (fun e => !Dmac.isMaskEvent e) = true ∧
    (Dmac.reset Dmac.Variant.samd51 id).all
      (fun e => !Dmac.isMaskEvent e) = true ∧
    (Dmac.start Dmac.Variant.samd51 id src act).all
      (fun e => !Dmac.isMaskEvent e) = true ∧
    (Dmac.stop Dmac.Variant.samd51 id).all
      (fun e => !Dmac.isMaskEvent e) = true ∧
    (Dmac.enable_interrupts Dmac.Variant.samd51 id flags).all
      (fun e => !Dmac.isMaskEvent e) = true ∧
    (Dmac.disable_interrupts Dmac.Variant.samd51 id flags).all
      (fun e => !Dmac.isMaskEvent e) = true := by
  by_cases h : src = Dmac.DISABLE <;>
    refine ⟨rfl, rfl, ?_, rfl, rfl, rfl, rfl, rfl, ?_, rfl, rfl, rfl⟩ <;>
      simp [Dmac.start, Dmac.with_chid, Dmac.trigger_private, h,
        Dmac.maskedRun, Dmac.selectorDependent, Dmac.isMaskEvent]

/-- C3: the DFLLCTRLA enable and disable setters spin on the enable sync
bit and the DFLLMUL setters spin on the dfllmul sync bit, matching their
register groups; but both DFLLCTRLB mode setters spin on the enable sync
bit instead of the dfllctrlb sync bit — the wait matching the dfllctrlb
group never occurs in their traces, even though the dedicated
wait_sync_dfllctrlb helper exists in the source. -/
theorem DfllClock.mode_setters_wait_wrong_sync_bit :
    DfllClock.enableReg =
      [DfllClock.REvent.writeCtrlaEnable true, DfllClock.REvent.waitSyncEnable] ∧
    DfllClock.disableReg =
      [DfllClock.REvent.writeCtrlaEnable false, DfllClock.REvent.waitSyncEnable] ∧
    (∀ v, DfllClock.set_fine_maximum_step v =
      [DfllClock.REvent.writeMulFstep v, DfllClock.REvent.waitSyncDfllmul]) ∧
    (∀ v, DfllClock.set_coarse_maximum_step v =
      [DfllClock.REvent.writeMulCstep v, DfllClock.REvent.waitSyncDfllmul]) ∧
    (∀ v, DfllClock.set_multiplication_factor v =
      [DfllClock.REvent.writeMulMul v, DfllClock.REvent.waitSyncDfllmul]) ∧
    DfllClock.set_closed_mode =
      [DfllClock.REvent.writeCtrlbMode true, DfllClock.REvent.waitSyncEnable] ∧
    DfllClock.set_open_mode =
      [DfllClock.REvent.writeCtrlbMode false, DfllClock.REvent.waitSyncEnable] ∧
    DfllClock.REvent.waitSyncDfllctrlb ∉ DfllClock.set_closed_mode ∧
    DfllClock.REvent.waitSyncDfllctrlb ∉ DfllClock.set_open_mode ∧
    DfllClock.groupOf (DfllClock.REvent.writeCtrlbMode true) =
      some DfllClock.SyncBit.dfllctrlb ∧
    DfllClock.waitOf DfllClock.REvent.waitSyncEnable ≠
      some DfllClock.SyncBit.dfllctrlb :=
  ⟨rfl, rfl, fun _ => rfl, fun _ => rfl, fun _ => rfl, rfl, rfl,
    by decide, by decide, rfl, by decide⟩

/-- C4: in the register trace of enable on a closed-loop Dfll, the fine
step, coarse step and multiplication factor writes all occur strictly
before the mode-bit write, which is the final register write; the three
tuning writes appear in the order fine, coarse, factor, followed by the
mode write. -/
theorem DfllClock.closed_enable_tuning_before_mode
    (d : DfllClock.Dfll DfllClock.ClosedLoop) :
    d.enableClosed.2 =
      DfllClock.set_fine_maximum_step d.mode.fine_maximum_step ++
        DfllClock.set_coarse_maximum_step d.mode.coarse_maximum_step ++
          DfllClock.set_multiplication_factor d.multiplication_factor ++
            DfllClock.set_closed_mode ∧
    DfllClock.tuningWritesPrecedeModeWrite d.enableClosed.2 = true ∧
    List.Sublist
      [DfllClock.REvent.writeMulFstep d.mode.fine_maximum_step,
        DfllClock.REvent.writeMulCstep d.mode.coarse_maximum_step,
        DfllClock.REvent.writeMulMul d.multiplication_factor,
        DfllClock.REvent.writeCtrlbMode true]
      d.enableClosed.2 := by
  refine ⟨rfl, rfl, ?_⟩
  exact List.Sublist.cons₂ _ (List.Sublist.cons _ (List.Sublist.cons₂ _
    (List.Sublist.cons _ (List.Sublist.cons₂ _ (List.Sublist.cons _
      (List.Sublist.cons₂ _ (List.nil_sublist _)))))))

/-- C5: the disable operation on the Enabled wrapper of a Dfll is
available exactly at dependent count zero; at every positive count it is
absent. -/
theorem DfllClock.disable_only_at_zero_dependents :
    DfllClock.enabledOpAvailable DfllClock.EnabledOp.disableOp 0 = true ∧
    (∀ n : Nat, 0 < n →
      DfllClock.enabledOpAvailable DfllClock.EnabledOp.disableOp n = false) := by
  refine ⟨rfl, fun n hn => ?_⟩
  cases n with
  | zero => exact absurd hn (by decide)
  | succ k => rfl

/-- C5 witness: at dependent count two the disable operation is absent. -/
theorem DfllClock.disable_only_at_zero_dependents_witness :
    DfllClock.enabledOpAvailable DfllClock.EnabledOp.disableOp 2 = false :=
  DfllClock.disable_only_at_zero_dependents.2 2 (by decide)

/-- C6: starting from an enabled open-loop Dfll with one dependent,
to_closed_mode hands back the supplied generator handle and yields an
enabled closed-loop Dfll with one dependent whose output frequency is the
reference frequency times the factor in u32 arithmetic (1 MHz for a 1000
Hz reference and factor 1000); the following to_open_mode returns the very
reference-clock handle supplied to to_closed_mode together with the
generator handle, and restores the 48 MHz open-loop frequency; both mode
switches are available exactly at dependent count one. -/
theorem DfllClock.mode_switch_round_trip
    (e : DfllClock.Enabled (DfllClock.Dfll DfllClock.OpenLoop) 1)
    (g : DfllClock.Gclk0) (p : DfllClock.Pclk) (mul cs fs : Nat) :
    (DfllClock.to_closed_mode e g p mul cs fs).1.2 = g ∧
    (DfllClock.to_closed_mode e g p mul cs fs).1.1.inner.freqOut =
      DfllClock.u32 (p.freq * mul) ∧
    (p.freq = 1000 → mul = 1000 →
      (DfllClock.to_closed_mode e g p mul cs fs).1.1.inner.freqOut
        = 1000000) ∧
    (DfllClock.to_open_mode
      (DfllClock.to_closed_mode e g p mul cs fs).1.1 g).1.2.2 = p ∧
    (DfllClock.to_open_mode
      (DfllClock.to_closed_mode e g p mul cs fs).1.1 g).1.2.1 = g ∧
    (DfllClock.to_open_mode
      (DfllClock.to_closed_mode e g p mul cs fs).1.1 g).1.1.inner.freqOut
      = 48000000 ∧
    DfllClock.enabledOpAvailable DfllClock.EnabledOp.toClosedModeOp 1 = true ∧
    DfllClock.enabledOpAvailable DfllClock.EnabledOp.toOpenModeOp 1 = true ∧
    (∀ n : Nat, n ≠ 1 →
      DfllClock.enabledOpAvailable DfllClock.EnabledOp.toClosedModeOp n
          = false ∧
        DfllClock.enabledOpAvailable DfllClock.EnabledOp.toOpenModeOp n
          = false) := by
  refine ⟨rfl, rfl, ?_, rfl, rfl, ?_, rfl, rfl, ?_⟩
  · intro hp hm
    show DfllClock.u32 (p.freq * mul) = 1000000
    rw [hp, hm]
    decide
  · show DfllClock.u32 (48000000 * 1) = 48000000
    decide
  · intro n hn
    constructor <;> simpa [DfllClock.enabledOpAvailable] using hn

/-- C6 witness: the round trip evaluated on concrete handles, with a 1000
Hz reference clock and factor 1000, gives a 1 MHz closed-loop output. -/
theorem DfllClock.mode_switch_round_trip_witness :
    (DfllClock.to_closed_mode DfllClock.sampleEnabledOpen ⟨⟩
      { freq := 1000 } 1000 1 1).1.1.inner.freqOut = 1000000 :=
  (DfllClock.mode_switch_round_trip DfllClock.sampleEnabledOpen ⟨⟩
    { freq := 1000 } 1000 1 1).2.2.1 rfl rfl

/-- C7 counterexample: for the closed-loop Dfll with base frequency 2 ^ 31
Hz and multiplication factor 4, the freq method returns 0, not the
mathematical product 2 ^ 33, because the multiplication is performed in
u32 arithmetic. -/
theorem DfllClock.freq_not_product_at_overflow :
    DfllClock.overflowDfll.freqOut ≠
      DfllClock.overflowDfll.freq *
        DfllClock.overflowDfll.multiplication_factor ∧
    DfllClock.overflowDfll.freqOut = 0 ∧
    DfllClock.overflowDfll.freq *
      DfllClock.overflowDfll.multiplication_factor = 8589934592 := by
  refine ⟨?_, ?_, ?_⟩ <;> decide

/-- C7 (amended): freq returns the stored base frequency times the
multiplication factor computed in u32 arithmetic, which equals the
mathematical product whenever that product fits in 32 bits; the open-loop
constructor stores the fixed 48 MHz base and default factor 1, so its freq
is 48_000_000, and a closed-loop Dfll with a 32_768 Hz reference and
factor 1000 has freq 32_768_000. -/
theorem DfllClock.freq_is_u32_product (t : DfllClock.DfllToken)
    (p : DfllClock.Pclk) (m cs fs : Nat) :
    (DfllClock.in_open_mode t).freqOut = 48000000 ∧
    (DfllClock.in_closed_mode t p m cs fs).freqOut =
      DfllClock.u32 (p.freq * m) ∧
    (p.freq * m < 2 ^ 32 →
      (DfllClock.in_closed_mode t p m cs fs).freqOut = p.freq * m) ∧
    (p.freq = 32768 → m = 1000 →
      (DfllClock.in_closed_mode t p m cs fs).freqOut = 32768000) := by
  refine ⟨?_, rfl, ?_, ?_⟩
  · show DfllClock.u32 (48000000 * 1) = 48000000
    decide
  · intro h
    exact Nat.mod_eq_of_lt h
  · intro hp hm
    show DfllClock.u32 (p.freq * m) = 32768000
    rw [hp, hm]
    decide

/-- C7 witness: the concrete closed-loop instance with a 32_768 Hz
reference and factor 1000 evaluates to 32_768_000. -/
theorem DfllClock.freq_is_u32_product_witness :
    (DfllClock.in_closed_mode ⟨⟩ { freq := 32768 } 1000 1 1).freqOut
      = 32768000 :=
  (DfllClock.freq_is_u32_product ⟨⟩ { freq := 32768 } 1000 1 1).2.2.2 rfl rfl

/-- C10: freq on a closed-loop Dfll is the product of the reference
frequency and the multiplication factor reduced modulo 2 ^ 32; whenever
the mathematical product is at least 2 ^ 32 the returned value differs
from it, and whenever the product fits in 32 bits the returned value
equals it; the overflow case is reachable with a base frequency below
2 ^ 32 and a factor below 2 ^ 16, as the concrete instance shows. -/
theorem DfllClock.freq_wraps_modulo_u32 (t : DfllClock.DfllToken)
    (p : DfllClock.Pclk) (m cs fs : Nat) :
    (DfllClock.in_closed_mode t p m cs fs).freqOut = p.freq * m % 2 ^ 32 ∧
    (2 ^ 32 ≤ p.freq * m →
      (DfllClock.in_closed_mode t p m cs fs).freqOut ≠ p.freq * m) ∧
    (p.freq * m < 2 ^ 32 →
      (DfllClock.in_closed_mode t p m cs fs).freqOut = p.freq * m) ∧
    DfllClock.overflowDfll.freq < 2 ^ 32 ∧
    DfllClock.overflowDfll.multiplication_factor < 2 ^ 16 ∧
    2 ^ 32 ≤ DfllClock.overflowDfll.freq *
      DfllClock.overflowDfll.multiplication_factor := by
  refine ⟨rfl, ?_, ?_, by decide, by decide, by decide⟩
  · intro h
    show p.freq * m % 2 ^ 32 ≠ p.freq * m
    have hlt : p.freq * m % 2 ^ 32 < 2 ^ 32 :=
      Nat.mod_lt _ (by norm_num)
    exact Nat.ne_of_lt (Nat.lt_of_lt_of_le hlt h)
  · intro h
    exact Nat.mod_eq_of_lt h

/-- C10 witness: at base frequency 2 ^ 31 and factor 4 the returned
frequency differs from the mathematical product. -/
theorem DfllClock.freq_wraps_modulo_u32_witness :
    (DfllClock.in_closed_mode ⟨⟩ { freq := 2147483648 } 4 1 1).freqOut ≠
      (({ freq := 2147483648 } : DfllClock.Pclk).freq * 4) :=
  (DfllClock.freq_wraps_modulo_u32 ⟨⟩ { freq := 2147483648 } 4 1 1).2.1
    (by decide)
